import Mathlib

/-!
Verification development for the Thermacell LIV integration
(coordinator.py and api.py): a shallow embedding of the state
synchronization and command engine, with theorems about status
normalization, brightness conversions, cross-device isolation,
command atomicity, poll failure handling, the HTTP 401 retry path
and the credential lifecycle.

Conventions of the embedding:
- Python dictionaries keyed by strings are modelled as association
  lists (List (String × _)) with first-match lookup; dict insertion
  that overwrites in place is modelled by ainsert.
- Python None / missing keys are modelled with Option; .get with a
  default becomes Option.getD.
- Python int() applied to a nonnegative or negative float of an exact
  fraction is truncation toward zero, modelled by Int.tdiv (for the
  brightness conversions the float computation was checked to agree
  with exact truncated rational division on the whole input ranges
  0..100 and 0..255 that the program produces).
- Python // is floor division, modelled by Int.fdiv.
- Real arithmetic of colorsys.hsv_to_rgb is modelled exactly with a
  non-normalizing fraction type Frac (numerator and denominator kept
  as integers, denominators always positive in every use site).
- Exceptions are modelled with Except: primitives that can raise
  return Except PyErr _, and a try/except block in the source becomes
  a match on the Except value.
-/

namespace ThermacellLiv

/-- Exceptions that the embedded code can raise: AttributeError (for the
call of the undefined api method get_node_config), TimeoutError,
any other exception, and the UpdateFailed exception that the
coordinator raises itself. -/
inductive PyErr where
  | attributeError
  | timeoutError
  | otherExc
  | updateFailedExc (msg : String)
deriving DecidableEq

/-- Exact fraction with integer numerator and denominator; never
normalized, so that all operations are plain integer arithmetic and
reduce inside the kernel. Denominators are positive at every use site. -/
structure Frac where
  num : Int
  den : Int
deriving DecidableEq

def Frac.ofInt (n : Int) : Frac := ⟨n, 1⟩

def Frac.one : Frac := ⟨1, 1⟩

def Frac.mul (x y : Frac) : Frac := ⟨x.num * y.num, x.den * y.den⟩

def Frac.mulInt (x : Frac) (n : Int) : Frac := ⟨x.num * n, x.den⟩

def Frac.divInt (x : Frac) (n : Int) : Frac := ⟨x.num, x.den * n⟩

def Frac.sub (x y : Frac) : Frac := ⟨x.num * y.den - y.num * x.den, x.den * y.den⟩

/-- Python int() of the exact value of the fraction: truncation toward
zero (the denominator is positive at every use site). -/
def Frac.pyInt (x : Frac) : Int := Int.tdiv x.num x.den

/-- colorsys.hsv_to_rgb translated literally (h, s, v as exact
fractions). The source calls it with s fixed to 1.0. -/
def hsvToRgb (h s v : Frac) : Frac × Frac × Frac :=
  if s.num = 0 then (v, v, v)
  else
    let h6 : Frac := h.mulInt 6
    let i : Int := h6.pyInt
    let f : Frac := h6.sub (Frac.ofInt i)
    let p : Frac := v.mul (Frac.one.sub s)
    let q : Frac := v.mul (Frac.one.sub (s.mul f))
    let t : Frac := v.mul (Frac.one.sub (s.mul (Frac.one.sub f)))
    let i6 : Int := i % 6
    if i6 = 0 then (v, t, p)
    else if i6 = 1 then (q, v, p)
    else if i6 = 2 then (p, v, t)
    else if i6 = 3 then (p, q, v)
    else if i6 = 4 then (t, p, v)
    else (v, p, q)

/-- coordinator.py line 133: ha_brightness = int((brightness / 100) * 255)
if brightness > 0 else 0. This is the normalizer conversion from the
vendor 0..100 scale to the host 0..255 scale. -/
def haBrightnessOfPct (pct : Int) : Int :=
  if 0 < pct then Int.tdiv (pct * 255) 100 else 0

/-- coordinator.py line 238: int((brightness / 255) * 100), the command
facade conversion from the host 0..255 scale back to the vendor
0..100 scale. -/
def vendorPctOfHa (b : Int) : Int := Int.tdiv (b * 100) 255

/-- coordinator.py lines 119..130: the status interpretation chain. -/
def statusText (error : Int) (enableRepellers : Bool) (systemStatus : Int) : String :=
  if 0 < error then "Error"
  else if !enableRepellers then "Off"
  else if systemStatus = 1 then "Off"
  else if systemStatus = 2 then "Warming Up"
  else if systemStatus = 3 then "On"
  else "Unknown"

/-- The led_color dictionary of a device record. -/
structure LedColor where
  r : Int
  g : Int
  b : Int
deriving DecidableEq

/-- The canonical per-device record built at coordinator.py lines
139..154 and mutated by the command methods. -/
structure DeviceRecord where
  power : Bool
  led_power : Bool
  led_brightness : Int
  led_brightness_pct : Int
  led_color : LedColor
  refill_life : Int
  system_status : String
  system_status_code : Int
  error_code : Int
  last_updated : Int
deriving DecidableEq

/-- The per-node record built at coordinator.py lines 87..97. -/
structure NodeRecord where
  id : String
  name : String
  type : String
  fw_version : String
  model : String
  hub_serial : Option String
  system_runtime : Option Int
  online : Bool
  devices : List (String × DeviceRecord)
deriving DecidableEq

/-- The coordinator state store (self.data / self.nodes): a dictionary
from node id to node record. -/
abbrev Store := List (String × NodeRecord)

/-- First-match lookup in an association list (dictionary read). -/
def alookup {α : Type} : List (String × α) → String → Option α
  | [], _ => none
  | (k, v) :: t, s => if k = s then some v else alookup t s

/-- In-place mutation of the value stored under a key, identity when the
key is absent (a Python dict write through a reference obtained by a
guarded lookup; writing to the fresh empty dict returned by
.get(name, default) when the key is absent has no observable effect on
the store). -/
def aupdate {α : Type} (key : String) (f : α → α) : List (String × α) → List (String × α)
  | [] => []
  | (k, v) :: t => if k = key then (k, f v) :: aupdate key f t else (k, v) :: aupdate key f t

/-- Dictionary insertion: overwrite in place when the key exists,
append otherwise (Python dict assignment semantics). -/
def ainsert {α : Type} (key : String) (v : α) : List (String × α) → List (String × α)
  | [] => [(key, v)]
  | (k, w) :: t => if k = key then (k, v) :: t else (k, w) :: ainsert key v t

/-- coordinator.py get_node_data. -/
def getNodeData (st : Store) (nodeId : String) : Option NodeRecord := alookup st nodeId

/-- coordinator.py get_device_data. -/
def getDeviceData (st : Store) (nodeId deviceName : String) : Option DeviceRecord :=
  match getNodeData st nodeId with
  | some node => alookup node.devices deviceName
  | none => none

/-- coordinator.py is_node_online. -/
def isNodeOnline (st : Store) (nodeId : String) : Bool :=
  match getNodeData st nodeId with
  | some node => node.online
  | none => false

/-- The common shape of the optimistic cache update of every command:
if the node is present, mutate the device record stored under
(nodeId, deviceName); absent node or absent device leaves the store
unchanged, exactly as in the source where the mutation then targets a
fresh dictionary not reachable from the store. -/
def updateDevice (st : Store) (nodeId deviceName : String)
    (f : DeviceRecord → DeviceRecord) : Store :=
  aupdate nodeId (fun node => { node with devices := aupdate deviceName f node.devices }) st

/-- coordinator.py async_set_device_power, lines 181..196. The success
argument is the result of the awaited api.set_device_power call; the
result pairs the returned boolean with the store after the optimistic
update. -/
def async_set_device_power (success : Bool) (st : Store)
    (nodeId deviceName : String) (powerOn : Bool) : Bool × Store :=
  if success then
    (true, updateDevice st nodeId deviceName (fun r =>
      { r with power := powerOn,
               led_power := powerOn && decide (0 < r.led_brightness) }))
  else (false, st)

/-- coordinator.py async_set_device_led_power, lines 198..213. -/
def async_set_device_led_power (success : Bool) (st : Store)
    (nodeId deviceName : String) (ledOn : Bool) : Bool × Store :=
  if success then
    (true, updateDevice st nodeId deviceName (fun r =>
      { r with led_power := ledOn && r.power && decide (0 < r.led_brightness) }))
  else (false, st)

/-- coordinator.py async_set_device_led_color, lines 215..228. -/
def async_set_device_led_color (success : Bool) (st : Store)
    (nodeId deviceName : String) (red green blue : Int) : Bool × Store :=
  if success then
    (true, updateDevice st nodeId deviceName (fun r =>
      { r with led_color := ⟨red, green, blue⟩ }))
  else (false, st)

/-- coordinator.py async_set_device_led_brightness, lines 230..246. -/
def async_set_device_led_brightness (success : Bool) (st : Store)
    (nodeId deviceName : String) (brightness : Int) : Bool × Store :=
  if success then
    (true, updateDevice st nodeId deviceName (fun r =>
      { r with led_brightness := brightness,
               led_brightness_pct := vendorPctOfHa brightness,
               led_power := r.power && decide (0 < brightness) }))
  else (false, st)

/-- coordinator.py async_reset_refill_life, lines 248..256. -/
def async_reset_refill_life (success : Bool) (st : Store)
    (nodeId deviceName : String) : Bool × Store :=
  if success then
    (true, updateDevice st nodeId deviceName (fun r => { r with refill_life := 100 }))
  else (false, st)

/-- The vendor parameter blob stored under the key "LIV Hub" of a node
params dictionary, with one Option field per key the coordinator reads. -/
structure DeviceParams where
  name : Option String
  hubId : Option String
  ledHue : Option Int
  ledBrightness : Option Int
  enableRepellers : Option Bool
  systemStatus : Option Int
  error : Option Int
  refillLife : Option Int
  systemRuntime : Option Int
deriving DecidableEq

/-- One element of the list returned by api.get_user_nodes. livHub is
the params dictionary entry under "LIV Hub" when present and a
dictionary (absence and a non-dictionary value guard the same code and
are collapsed into none). -/
structure NodeRaw where
  id : Option String
  node_name : Option String
  type : Option String
  livHub : Option DeviceParams
deriving DecidableEq

/-- The connectivity sub-object of a node status payload. -/
structure ConnectivityRaw where
  connected : Option Bool
  timestamp : Option Int
deriving DecidableEq

/-- A node status payload; a falsy payload (None or an empty dictionary,
which guard the same code) is modelled as none at the ApiModel level. -/
structure StatusRaw where
  connectivity : Option ConnectivityRaw
deriving DecidableEq

/-- The info sub-object of a node config payload. -/
structure InfoRaw where
  fw_version : Option String
  model : Option String
deriving DecidableEq

/-- A node config payload. -/
structure ConfigRaw where
  info : Option InfoRaw
deriving DecidableEq

/-- The api surface the coordinator polls through, as one fetch cycle
sees it. get_user_nodes and get_node_status are total in api.py (all
exceptions are caught inside _make_request); get_node_config is typed
in Except because the coordinator resolves it by attribute access,
which can raise. -/
structure ApiModel where
  get_user_nodes : List NodeRaw
  get_node_status : String → Option StatusRaw
  get_node_config : String → Except PyErr (Option ConfigRaw)

/-- The production behavior of the attribute access api.get_node_config
at coordinator.py line 60: ThermacellLivAPI (api.py lines 28..240)
defines no method or attribute named get_node_config, so the access
raises AttributeError for every node id. -/
def prodGetNodeConfig : String → Except PyErr (Option ConfigRaw) :=
  fun _ => .error .attributeError

/-- Python truthiness of an optional string (None and the empty string
are falsy). -/
def pyTruthyStr : Option String → Bool
  | none => false
  | some t => !(t == "")

/-- coordinator.py lines 104..154: build the single device record of a
node from its "LIV Hub" params and the connectivity object. -/
def buildDeviceRecord (connectivity : Option ConnectivityRaw) (dp : DeviceParams) : DeviceRecord :=
  let hue := dp.ledHue.getD 0
  let brightness := dp.ledBrightness.getD 100
  let h_norm : Frac := if 0 < hue then (Frac.ofInt hue).divInt 360 else Frac.ofInt 0
  let s_norm : Frac := Frac.one
  let v_norm : Frac := (Frac.ofInt brightness).divInt 100
  let rgb := hsvToRgb h_norm s_norm v_norm
  let system_status := dp.systemStatus.getD 1
  let enable_repellers := dp.enableRepellers.getD false
  let error := dp.error.getD 0
  let hub_powered := dp.enableRepellers.getD false
  let ts : Int :=
    match connectivity with
    | some c => c.timestamp.getD 0
    | none => 0
  { power := hub_powered
    led_power := hub_powered && decide (0 < brightness)
    led_brightness := haBrightnessOfPct brightness
    led_brightness_pct := brightness
    led_color := ⟨(rgb.1.mulInt 255).pyInt, (rgb.2.1.mulInt 255).pyInt, (rgb.2.2.mulInt 255).pyInt⟩
    refill_life := dp.refillLife.getD 0
    system_status := statusText error enable_repellers system_status
    system_status_code := system_status
    error_code := error
    last_updated := Int.fdiv ts 1000 }

/-- coordinator.py lines 98..154: the devices dictionary of a node
record (empty unless the params hold a "LIV Hub" dictionary). -/
def buildDevices (connectivity : Option ConnectivityRaw)
    (livHub : Option DeviceParams) : List (String × DeviceRecord) :=
  match livHub with
  | none => []
  | some dp => [(dp.name.getD "LIV Hub", buildDeviceRecord connectivity dp)]

/-- coordinator.py lines 56..156: the node record produced for a node
whose status payload is truthy. -/
def buildNodeRecord (node : NodeRaw) (nid : String) (config_data : Option ConfigRaw)
    (sd : StatusRaw) : NodeRecord :=
  let node_name := node.node_name.getD ("Unknown Node " ++ nid)
  let fwModel : String × String :=
    match config_data with
    | some c =>
      match c.info with
      | some i => (i.fw_version.getD "Unknown", i.model.getD "thermacell-hub")
      | none => ("Unknown", "Thermacell LIV")
    | none => ("Unknown", "Thermacell LIV")
  let hubSerial : Option String :=
    match node.livHub with
    | some dp => dp.hubId
    | none => none
  let systemRuntime : Option Int :=
    match node.livHub with
    | some dp => some (dp.systemRuntime.getD 0)
    | none => none
  let online : Bool :=
    match sd.connectivity with
    | some c => c.connected.getD false
    | none => false
  { id := nid
    name := node_name
    type := node.type.getD "Thermacell LIV"
    fw_version := fwModel.1
    model := fwModel.2
    hub_serial := hubSerial
    system_runtime := systemRuntime
    online := online
    devices := buildDevices sd.connectivity node.livHub }

/-- coordinator.py lines 51..156: one iteration of the poll loop for a
single raw node. Returns .ok none when the node is skipped (falsy id
or falsy status payload), .ok (some entry) when a record is produced,
and .error when something raises (in production the get_node_config
attribute access at line 60 does; the status fetched at line 59 has no
effect before that point). -/
def processNode (api : ApiModel) (node : NodeRaw) : Except PyErr (Option (String × NodeRecord)) :=
  match node.id with
  | none => .ok none
  | some nid =>
    if nid = "" then .ok none
    else
      match api.get_node_config nid with
      | .error e => .error e
      | .ok config_data =>
        match api.get_node_status nid with
        | none => .ok none
        | some sd => .ok (some (nid, buildNodeRecord node nid config_data sd))

/-- The poll loop over all raw nodes, accumulating updated_data. -/
def updateLoop (api : ApiModel) : List NodeRaw → Store → Except PyErr Store
  | [], acc => .ok acc
  | node :: rest, acc =>
    match processNode api node with
    | .error e => .error e
    | .ok none => updateLoop api rest acc
    | .ok (some (nid, rec)) => updateLoop api rest (ainsert nid rec acc)

/-- The body of the try block of _async_update_data (coordinator.py
lines 41..159): raise UpdateFailed when get_user_nodes returns an
empty (falsy) list, otherwise run the loop. -/
def updateDataBody (api : ApiModel) : Except PyErr Store :=
  match api.get_user_nodes with
  | [] => .error (.updateFailedExc "No nodes found")
  | node :: rest => updateLoop api (node :: rest) []

/-- The host-facing typed failure of a poll cycle (UpdateFailed). -/
structure UpdateFailedE where
  msg : String
deriving DecidableEq

/-- str(err) for the exceptions the except clause can see. -/
def pyErrMsg : PyErr → String
  | .attributeError => "AttributeError: get_node_config"
  | .timeoutError => "TimeoutError"
  | .otherExc => "Exception"
  | .updateFailedExc m => m

/-- coordinator.py _async_update_data, lines 39..163: the except clause
converts every exception raised in the body into UpdateFailed. -/
def asyncUpdateData (api : ApiModel) : Except UpdateFailedE Store :=
  match updateDataBody api with
  | .ok st => .ok st
  | .error e => .error ⟨"Error communicating with API: " ++ pyErrMsg e⟩

/-- One poll cycle as the host scheduler sees it: on success the store
is replaced wholesale by the new map (self.nodes assignment at line 158
and the framework assignment of self.data); on UpdateFailed the store
keeps its previous contents (the assignment is never reached). -/
def runUpdate (api : ApiModel) (st : Store) : Except UpdateFailedE Store × Store :=
  match asyncUpdateData api with
  | .ok m => (.ok m, m)
  | .error e => (.error e, st)

/-- The credential pair held by the api client (api.py lines 44..45). -/
structure CredState where
  access_token : Option String
  user_id : Option String
deriving DecidableEq

/-- One scripted outcome of the session.post call inside authenticate.
For a response, accesstoken is the accesstoken field of the JSON body;
idtok describes the idtoken field: none when the key is absent or the
token is falsy, some none when a token is present but its decoded
payload is falsy (malformed JWT), and some (some u) when the payload is
truthy, with u the value of its custom:user_id claim (itself optional). -/
inductive AuthEv where
  | exc
  | resp (status : Nat) (accesstoken : Option String) (idtok : Option (Option (Option String)))
deriving DecidableEq

/-- api.py authenticate, lines 48..86: returns the boolean outcome and
the credential state after the call. On a 200 response access_token is
assigned unconditionally from the body; user_id is assigned only when a
decodable idtoken with truthy payload is present; the return value is
(access_token is not None and user_id is not None). On a non-200
response or an exception nothing is assigned and False is returned. -/
def authenticate (st : CredState) (ev : AuthEv) : Bool × CredState :=
  match ev with
  | .exc => (false, st)
  | .resp status tok idt =>
    if status = 200 then
      let st1 : CredState := { st with access_token := tok }
      let st2 : CredState :=
        match idt with
        | none => st1
        | some none => st1
        | some (some u) => { st1 with user_id := u }
      ((st2.access_token.isSome && st2.user_id.isSome), st2)
    else (false, st)

/-- One scripted outcome of a session.request call inside _make_request:
a response with a status code, a flag telling whether the content type
is application/json, and the parsed body; or a timeout; or any other
exception. -/
inductive ReqEv (α : Type) where
  | resp (status : Nat) (isJson : Bool) (body : α)
  | timeout
  | exc
deriving DecidableEq

/-- The primitive network call: a response is returned, an exception is
raised as an Except error. -/
def sessionRequest {α : Type} (ev : ReqEv α) : Except PyErr (Nat × Bool × α) :=
  match ev with
  | .resp s j b => .ok (s, j, b)
  | .timeout => .error .timeoutError
  | .exc => .error .otherExc

/-- api.py line 25. -/
def RETRY_ATTEMPTS : Nat := 3

/-- The outcome of _make_request: the returned value (an Except whose
error case would be an exception escaping to the caller), the
credential state after the call, and instrumentation counters for the
number of session.request calls and of authenticate calls performed. -/
structure MrResult (α : Type) where
  result : Except PyErr (Option α)
  cred : CredState
  nRequests : Nat
  nAuths : Nat

/-- The retry loop of api.py _make_request, lines 117..151. fuel is the
number of remaining loop iterations (RETRY_ATTEMPTS - attempt), attempt
indexes the request script, authIdx the authentication script. The
match on sessionRequest embeds the try/except blocks: a timeout returns
None on the last attempt and otherwise continues, any other exception
returns None, a 401 response triggers authenticate and either continues
(consuming an attempt) or returns None, a 2xx response returns the body
(or an empty dictionary when the content type is not JSON), and any
other status returns None. Falling out of the loop returns None. -/
def mrLoop {α : Type} (emptyObj : α) (authEvs : List AuthEv) (reqEvs : List (ReqEv α)) :
    Nat → Nat → Nat → CredState → Nat → Nat → MrResult α
  | 0, _, _, cred, nr, na => ⟨.ok none, cred, nr, na⟩
  | fuel + 1, attempt, authIdx, cred, nr, na =>
    match sessionRequest (reqEvs.getD attempt .exc) with
    | .error .timeoutError =>
      if attempt = RETRY_ATTEMPTS - 1 then ⟨.ok none, cred, nr + 1, na⟩
      else mrLoop emptyObj authEvs reqEvs fuel (attempt + 1) authIdx cred (nr + 1) na
    | .error _ => ⟨.ok none, cred, nr + 1, na⟩
    | .ok (status, isJson, body) =>
      if status = 401 then
        let a := authenticate cred (authEvs.getD authIdx .exc)
        if a.1 then
          mrLoop emptyObj authEvs reqEvs fuel (attempt + 1) (authIdx + 1) a.2 (nr + 1) (na + 1)
        else ⟨.ok none, a.2, nr + 1, na + 1⟩
      else if status = 200 ∨ status = 201 ∨ status = 204 then
        ⟨.ok (some (if isJson then body else emptyObj)), cred, nr + 1, na⟩
      else ⟨.ok none, cred, nr + 1, na⟩

/-- api.py _make_request, lines 106..151: when the stored access token
is falsy, authenticate first and return None if that fails; then run
the retry loop. -/
def makeRequest {α : Type} (emptyObj : α) (cred : CredState)
    (authEvs : List AuthEv) (reqEvs : List (ReqEv α)) : MrResult α :=
  if pyTruthyStr cred.access_token then
    mrLoop emptyObj authEvs reqEvs RETRY_ATTEMPTS 0 0 cred 0 0
  else
    let a := authenticate cred (authEvs.getD 0 .exc)
    if a.1 then mrLoop emptyObj authEvs reqEvs RETRY_ATTEMPTS 0 1 a.2 0 1
    else ⟨.ok none, a.2, 0, 1⟩

/-- api.py set_node_params, lines 180..184: the result is
(response is not None). All five write endpoints of the api client
(set_device_power, set_device_led_power, set_device_led_color,
set_device_led_brightness, reset_refill_life) build a pure parameter
dictionary and delegate to this call; the payload they send does not
influence the control flow modelled here. -/
def set_node_params {α : Type} (emptyObj : α) (cred : CredState)
    (authEvs : List AuthEv) (reqEvs : List (ReqEv α)) : Except PyErr Bool × CredState :=
  let m := makeRequest emptyObj cred authEvs reqEvs
  (m.result.map Option.isSome, m.cred)

/-- A full coordinator command as one function: the transport call
followed, on success, by the optimistic cache update. The coordinator
methods contain no try/except, so an exception raised below them would
escape: the Except error case of this function is exactly that event. -/
def runCommand {α : Type} (emptyObj : α) (cred : CredState)
    (authEvs : List AuthEv) (reqEvs : List (ReqEv α)) (st : Store)
    (localUpdate : Bool → Store → Bool × Store) : Except PyErr (Bool × Store × CredState) :=
  match set_node_params emptyObj cred authEvs reqEvs with
  | (.error e, _) => .error e
  | (.ok success, cred2) =>
    let r := localUpdate success st
    .ok (r.1, r.2, cred2)

theorem alookup_aupdate {α : Type} (key k : String) (f : α → α) (l : List (String × α)) :
    alookup (aupdate key f l) k = if k = key then (alookup l k).map f else alookup l k := by
  induction l with
  | nil => simp [alookup, aupdate]
  | cons hd tl ih =>
    obtain ⟨k1, v⟩ := hd
    by_cases h1 : k1 = key
    · simp only [aupdate, if_pos h1, alookup]
      by_cases h2 : k1 = k
      · subst h2
        simp [h1]
      · simp [h2, ih]
    · simp only [aupdate, if_neg h1, alookup]
      by_cases h2 : k1 = k
      · subst h2
        simp [h1]
      · simp [h2, ih]

theorem getDeviceData_updateDevice (st : Store) (n d n1 d1 : String)
    (f : DeviceRecord → DeviceRecord) :
    getDeviceData (updateDevice st n d f) n1 d1 =
      if n1 = n ∧ d1 = d then (getDeviceData st n1 d1).map f
      else getDeviceData st n1 d1 := by
  unfold getDeviceData updateDevice getNodeData
  rw [alookup_aupdate]
  by_cases h1 : n1 = n
  · rw [if_pos h1]
    cases halookup : alookup st n1 with
    | none => simp
    | some node =>
      show alookup (aupdate d f node.devices) d1 = _
      rw [alookup_aupdate]
      by_cases h2 : d1 = d
      · rw [if_pos h2, if_pos ⟨h1, h2⟩]
      · rw [if_neg h2, if_neg (fun hc => h2 hc.2)]
  · rw [if_neg h1, if_neg (fun hc => h1 hc.1)]

/-- Claim C1: a successful command issued through the coordinator for a
target pair (nodeA, deviceX) leaves the record of every other
(node, device) pair exactly equal to its pre-call value, for each of
the five command operations (and the same holds for a failed command). -/
theorem crossDeviceIsolation :
    ∀ (success : Bool) (st : Store) (nodeA deviceX n d : String),
      ¬(n = nodeA ∧ d = deviceX) →
      (∀ p : Bool, getDeviceData (async_set_device_power success st nodeA deviceX p).2 n d
        = getDeviceData st n d) ∧
      (∀ l : Bool, getDeviceData (async_set_device_led_power success st nodeA deviceX l).2 n d
        = getDeviceData st n d) ∧
      (∀ r g b : Int, getDeviceData (async_set_device_led_color success st nodeA deviceX r g b).2 n d
        = getDeviceData st n d) ∧
      (∀ br : Int, getDeviceData (async_set_device_led_brightness success st nodeA deviceX br).2 n d
        = getDeviceData st n d) ∧
      getDeviceData (async_reset_refill_life success st nodeA deviceX).2 n d
        = getDeviceData st n d := by
  intro success st nodeA deviceX n d h
  refine ⟨fun p => ?_, fun l => ?_, fun r g b => ?_, fun br => ?_, ?_⟩
  all_goals cases success
  all_goals
    simp only [async_set_device_power, async_set_device_led_power, async_set_device_led_color,
      async_set_device_led_brightness, async_reset_refill_life, Bool.false_eq_true, if_false,
      if_true, getDeviceData_updateDevice, if_neg h]

def c1Dev1 : DeviceRecord :=
  ⟨true, true, 143, 56, ⟨255, 0, 0⟩, 75, "On", 3, 0, 0⟩

def c1Dev2 : DeviceRecord :=
  ⟨true, true, 200, 78, ⟨0, 255, 255⟩, 90, "On", 3, 0, 0⟩

def c1Store : Store :=
  [("node1", ⟨"node1", "Hub 1", "LIV Hub", "5.3.2", "thermacell-hub", some "A", some 120, true,
      [("LIV Hub", c1Dev1)]⟩),
   ("node2", ⟨"node2", "Hub 2", "LIV Hub", "5.3.2", "thermacell-hub", some "B", some 200, true,
      [("LIV Hub", c1Dev2)]⟩)]

/-- Witness for C1 on a concrete two-node store. -/
theorem crossDeviceIsolation_witness :
    (getDeviceData (async_set_device_power true c1Store "node1" "LIV Hub" true).2 "node2" "LIV Hub"
      = getDeviceData c1Store "node2" "LIV Hub") ∧
    (getDeviceData (async_set_device_led_power true c1Store "node1" "LIV Hub" false).2 "node2" "LIV Hub"
      = getDeviceData c1Store "node2" "LIV Hub") ∧
    (getDeviceData (async_set_device_led_color true c1Store "node1" "LIV Hub" 1 2 3).2 "node2" "LIV Hub"
      = getDeviceData c1Store "node2" "LIV Hub") ∧
    (getDeviceData (async_set_device_led_brightness true c1Store "node1" "LIV Hub" 10).2 "node2" "LIV Hub"
      = getDeviceData c1Store "node2" "LIV Hub") ∧
    (getDeviceData (async_reset_refill_life true c1Store "node1" "LIV Hub").2 "node2" "LIV Hub"
      = getDeviceData c1Store "node2" "LIV Hub") := by
  have h := crossDeviceIsolation true c1Store "node1" "LIV Hub" "node2" "LIV Hub" (by decide)
  exact ⟨h.1 true, h.2.1 false, h.2.2.1 1 2 3, h.2.2.2.1 10, h.2.2.2.2⟩

/-- Claim C8: when the underlying vendor api call fails, every command
returns false and the store is left exactly as it was (the whole pair
of return value and store equals (false, original store)). -/
theorem failedCommandNoMutation :
    ∀ (st : Store) (n d : String),
      (∀ p, async_set_device_power false st n d p = (false, st)) ∧
      (∀ l, async_set_device_led_power false st n d l = (false, st)) ∧
      (∀ r g b, async_set_device_led_color false st n d r g b = (false, st)) ∧
      (∀ br, async_set_device_led_brightness false st n d br = (false, st)) ∧
      async_reset_refill_life false st n d = (false, st) := by
  intro st n d
  exact ⟨fun _ => rfl, fun _ => rfl, fun _ _ _ => rfl, fun _ => rfl, rfl⟩

theorem haBrightnessOfPct_pos_iff (b : Int) : 0 < haBrightnessOfPct b ↔ 0 < b := by
  unfold haBrightnessOfPct
  by_cases h : 0 < b
  · rw [if_pos h]
    refine ⟨fun _ => h, fun _ => ?_⟩
    rcases b with m | m
    · cases m with
      | zero =>
        exfalso
        simp only [Int.ofNat_eq_natCast] at h
        omega
      | succ k =>
        show 0 < Int.ofNat ((k + 1) * 255 / 100)
        have h2 : 255 ≤ (k + 1) * 255 := by omega
        have h3 : 255 / 100 ≤ (k + 1) * 255 / 100 := Nat.div_le_div_right h2
        simp only [Int.ofNat_eq_natCast]
        omega
    · exfalso
      rw [Int.negSucc_eq] at h
      omega
  · rw [if_neg h]
    simp [h]

/-- The derived-field consistency property of one device record:
led_power equals power AND led_brightness positive. -/
def ledInvariant (r : DeviceRecord) : Prop :=
  r.led_power = (r.power && decide (0 < r.led_brightness))

instance (r : DeviceRecord) : Decidable (ledInvariant r) := by
  unfold ledInvariant
  infer_instance

/-- The derived-field consistency property over every device record of
every node of the store. -/
def storeLedInvariant (st : Store) : Prop :=
  ∀ e ∈ st, ∀ dev ∈ e.2.devices, ledInvariant dev.2

instance (st : Store) : Decidable (storeLedInvariant st) := by
  unfold storeLedInvariant
  infer_instance

theorem ledInvariant_buildDeviceRecord (conn : Option ConnectivityRaw) (dp : DeviceParams) :
    ledInvariant (buildDeviceRecord conn dp) := by
  have hb := haBrightnessOfPct_pos_iff (dp.ledBrightness.getD 100)
  by_cases h : 0 < dp.ledBrightness.getD 100
  · simp [ledInvariant, buildDeviceRecord, h, hb.mpr h]
  · have h2 : ¬0 < haBrightnessOfPct (dp.ledBrightness.getD 100) := fun hc => h (hb.mp hc)
    simp [ledInvariant, buildDeviceRecord, h, h2]

theorem buildDevices_ledInvariant (conn : Option ConnectivityRaw) (livHub : Option DeviceParams) :
    ∀ dev ∈ buildDevices conn livHub, ledInvariant dev.2 := by
  cases livHub with
  | none => simp [buildDevices]
  | some dp =>
    intro dev hdev
    simp only [buildDevices, List.mem_singleton] at hdev
    rw [hdev]
    exact ledInvariant_buildDeviceRecord conn dp

theorem mem_aupdate {α : Type} (key : String) (f : α → α) (l : List (String × α)) :
    ∀ e ∈ aupdate key f l, e ∈ l ∨ ∃ p, p ∈ l ∧ e = (p.1, f p.2) := by
  induction l with
  | nil => simp [aupdate]
  | cons hd tl ih =>
    obtain ⟨k1, v⟩ := hd
    by_cases h1 : k1 = key
    · simp only [aupdate, if_pos h1]
      intro e he
      rcases List.mem_cons.mp he with h | h
      · exact Or.inr ⟨(k1, v), List.mem_cons_self _ _, by simp [h]⟩
      · rcases ih e h with h3 | ⟨p, hp, he2⟩
        · exact Or.inl (List.mem_cons_of_mem _ h3)
        · exact Or.inr ⟨p, List.mem_cons_of_mem _ hp, he2⟩
    · simp only [aupdate, if_neg h1]
      intro e he
      rcases List.mem_cons.mp he with h | h
      · exact Or.inl (by simp [h])
      · rcases ih e h with h3 | ⟨p, hp, he2⟩
        · exact Or.inl (List.mem_cons_of_mem _ h3)
        · exact Or.inr ⟨p, List.mem_cons_of_mem _ hp, he2⟩

theorem mem_ainsert {α : Type} (key : String) (v : α) (l : List (String × α)) :
    ∀ e ∈ ainsert key v l, e ∈ l ∨ e = (key, v) := by
  induction l with
  | nil => simp [ainsert]
  | cons hd tl ih =>
    obtain ⟨k1, w⟩ := hd
    by_cases h1 : k1 = key
    · simp only [ainsert, if_pos h1]
      intro e he
      rcases List.mem_cons.mp he with h | h
      · exact Or.inr (by rw [h, h1])
      · exact Or.inl (List.mem_cons_of_mem _ h)
    · simp only [ainsert, if_neg h1]
      intro e he
      rcases List.mem_cons.mp he with h | h
      · exact Or.inl (by simp [h])
      · rcases ih e h with h3 | h3
        · exact Or.inl (List.mem_cons_of_mem _ h3)
        · exact Or.inr h3

theorem storeLedInvariant_updateDevice (st : Store) (n d : String)
    (f : DeviceRecord → DeviceRecord)
    (hf : ∀ r, ledInvariant r → ledInvariant (f r)) (h : storeLedInvariant st) :
    storeLedInvariant (updateDevice st n d f) := by
  intro e he dev hdev
  unfold updateDevice at he
  rcases mem_aupdate _ _ _ e he with h1 | ⟨p, hp, he2⟩
  · exact h e h1 dev hdev
  · subst he2
    rcases mem_aupdate _ _ _ dev hdev with h2 | ⟨q, hq, hd2⟩
    · exact h p hp dev h2
    · subst hd2
      exact hf _ (h p hp q hq)

theorem processNode_devices (api : ApiModel) (node : NodeRaw) (nid : String) (rec : NodeRecord)
    (h : processNode api node = .ok (some (nid, rec))) :
    ∀ dev ∈ rec.devices, ledInvariant dev.2 := by
  unfold processNode at h
  split at h
  · simp at h
  · split at h
    · simp at h
    · split at h
      · simp at h
      · split at h
        · simp at h
        · simp only [Except.ok.injEq, Option.some.injEq, Prod.mk.injEq] at h
          obtain ⟨h1, h2⟩ := h
          subst h2
          exact fun dev hdev => buildDevices_ledInvariant _ _ dev hdev

theorem storeLedInvariant_updateLoop (api : ApiModel) :
    ∀ nodes (acc : Store), storeLedInvariant acc →
      ∀ st, updateLoop api nodes acc = .ok st → storeLedInvariant st := by
  intro nodes
  induction nodes with
  | nil =>
    intro acc hacc st h
    unfold updateLoop at h
    cases h
    exact hacc
  | cons node rest ih =>
    intro acc hacc st h
    unfold updateLoop at h
    cases hpn : processNode api node with
    | error e =>
      rw [hpn] at h
      cases h
    | ok o =>
      rw [hpn] at h
      cases o with
      | none => exact ih acc hacc st h
      | some pr =>
        obtain ⟨nid, rec⟩ := pr
        refine ih _ ?_ st h
        intro e he dev hdev
        rcases mem_ainsert _ _ _ e he with h1 | h1
        · exact hacc e h1 dev hdev
        · subst h1
          revert hdev
          have hdevs := processNode_devices api node nid rec hpn
          exact fun hdev => hdevs dev hdev

theorem asyncUpdateData_storeLedInvariant (api : ApiModel) (st : Store)
    (h : asyncUpdateData api = .ok st) : storeLedInvariant st := by
  unfold asyncUpdateData at h
  cases hb : updateDataBody api with
  | error e =>
    rw [hb] at h
    cases h
  | ok st0 =>
    rw [hb] at h
    cases h
    unfold updateDataBody at hb
    cases hn : api.get_user_nodes with
    | nil =>
      rw [hn] at hb
      cases hb
    | cons node rest =>
      rw [hn] at hb
      exact storeLedInvariant_updateLoop api (node :: rest) [] (by intro e he; cases he) st hb

def c4Params : DeviceParams :=
  ⟨some "LIV Hub", some "HUB1", some 0, some 50, some true, some 3, some 0, some 75, some 120⟩

def c4Node : NodeRaw := ⟨some "node1", some "Hub 1", none, some c4Params⟩

def c4Api : ApiModel :=
  ⟨[c4Node],
   fun _ => some ⟨some ⟨some true, some 0⟩⟩,
   fun _ => .ok (some ⟨some ⟨some "5.3.2", some "thermacell-hub"⟩⟩)⟩

/-- Counterexample to claim C4: starting from the store produced by a
successful poll (one online node, repellers enabled, LED brightness 50
percent, so led_power = true with positive led_brightness), the
successful command async_set_device_led_power(node1, LIV Hub, false)
sets led_power to false while leaving power = true and
led_brightness = 127 unchanged, so led_power no longer equals
power AND led_brightness > 0: the invariant is violated on a reachable
store, and led_power was mutated independently of (power,
led_brightness). -/
theorem ledPowerInvariant_cex :
    storeLedInvariant (runUpdate c4Api []).2 ∧
    ¬storeLedInvariant
      (async_set_device_led_power true (runUpdate c4Api []).2 "node1" "LIV Hub" false).2 := by
  constructor
  · decide
  · decide

/-- Claim C4 amended: the invariant led_power = (power AND
led_brightness > 0) holds for every device record of a store produced
by a successful poll, and is preserved by async_set_device_power,
async_set_device_led_brightness, async_set_device_led_color,
async_reset_refill_life (successful or failed) and by
async_set_device_led_power with led_on = true; it is not preserved by
async_set_device_led_power with led_on = false, which mutates
led_power independently of (power, led_brightness). -/
theorem ledPowerInvariant_amended :
    (∀ (api : ApiModel) (st : Store), asyncUpdateData api = .ok st → storeLedInvariant st) ∧
    (∀ (st : Store) (n d : String), storeLedInvariant st →
      (∀ s p, storeLedInvariant (async_set_device_power s st n d p).2) ∧
      (∀ s br, storeLedInvariant (async_set_device_led_brightness s st n d br).2) ∧
      (∀ s r g b, storeLedInvariant (async_set_device_led_color s st n d r g b).2) ∧
      (∀ s, storeLedInvariant (async_reset_refill_life s st n d).2) ∧
      (∀ s, storeLedInvariant (async_set_device_led_power s st n d true).2)) := by
  constructor
  · exact asyncUpdateData_storeLedInvariant
  · intro st n d h
    refine ⟨fun s p => ?_, fun s br => ?_, fun s r g b => ?_, fun s => ?_, fun s => ?_⟩
    all_goals cases s
    · exact h
    · exact storeLedInvariant_updateDevice st n d _ (fun r _ => rfl) h
    · exact h
    · exact storeLedInvariant_updateDevice st n d _ (fun r _ => rfl) h
    · exact h
    · exact storeLedInvariant_updateDevice st n d _ (fun r hr => hr) h
    · exact h
    · exact storeLedInvariant_updateDevice st n d _ (fun r hr => hr) h
    · exact h
    · exact storeLedInvariant_updateDevice st n d _ (fun r _ => rfl) h

/-- Witness for the amended C4 on the concrete polled store. -/
theorem ledPowerInvariant_amended_witness :
    storeLedInvariant (runUpdate c4Api []).2 ∧
    storeLedInvariant
      (async_set_device_power true (runUpdate c4Api []).2 "node1" "LIV Hub" false).2 := by
  have h1 : asyncUpdateData c4Api = .ok (runUpdate c4Api []).2 := rfl
  have h2 := ledPowerInvariant_amended.1 c4Api (runUpdate c4Api []).2 h1
  exact ⟨h2, (ledPowerInvariant_amended.2 (runUpdate c4Api []).2 "node1" "LIV Hub" h2).1 true false⟩

theorem brightnessRoundTrip_aux :
    ∀ p : Fin 101, (vendorPctOfHa (haBrightnessOfPct (Int.ofNat p.val)) - Int.ofNat p.val).natAbs ≤ 1 := by
  decide

/-- Claim C5: converting a vendor brightness percentage in 0..100 to the
host 0..255 scale with the normalizer conversion and back with the
command facade conversion lands within one unit of the original; in
particular host brightness 143 converts to vendor 56, and vendor 56
converts to host 142, which lies in the set 142, 143, 144. -/
theorem brightnessRoundTrip :
    (∀ p : Int, 0 ≤ p → p ≤ 100 →
      (vendorPctOfHa (haBrightnessOfPct p) - p).natAbs ≤ 1) ∧
    vendorPctOfHa 143 = 56 ∧
    haBrightnessOfPct 56 = 142 ∧
    (haBrightnessOfPct 56 = 142 ∨ haBrightnessOfPct 56 = 143 ∨ haBrightnessOfPct 56 = 144) := by
  refine ⟨?_, by decide, by decide, by decide⟩
  intro p h0 h1
  have hn : p = Int.ofNat p.toNat := (Int.toNat_of_nonneg h0).symm
  have hlt : p.toNat < 101 := by omega
  have h2 := brightnessRoundTrip_aux ⟨p.toNat, hlt⟩
  rw [hn]
  exact h2

/-- Witness for C5 at the vendor percentage 56. -/
theorem brightnessRoundTrip_witness :
    ((0 : Int) ≤ 56) ∧ ((56 : Int) ≤ 100) ∧
    (vendorPctOfHa (haBrightnessOfPct 56) - 56).natAbs ≤ 1 :=
  ⟨by decide, by decide, brightnessRoundTrip.1 56 (by decide) (by decide)⟩

def c2Params : DeviceParams :=
  ⟨some "LIV Hub", some "OFFLINE456", some 0, some 100, some true, some 3, some 0, some 85,
   some 200⟩

def c2Node : NodeRaw := ⟨some "offline_node", some "Offline Hub", none, some c2Params⟩

def c2Api : ApiModel :=
  ⟨[c2Node],
   fun _ => some ⟨some ⟨some false, some 1757183054832⟩⟩,
   fun _ => .ok (some ⟨some ⟨some "5.3.2", some "thermacell-hub"⟩⟩)⟩

/-- Claim C2 (code-bug evaluation): the status chain of coordinator.py
maps the vendor tuple (error = 0, enabled = true, statusCode = 3) to
the text On, not Protected, and the record normalized for an offline
node (connectivity connected = false, all other fields operational)
carries online = false together with system_status = On: no final
override ever produces Not Connected. The unit test
tests/test_multi_device_status.py asserts Protected and Not Connected
on exactly these inputs. -/
theorem statusMappingCodeEval :
    statusText 0 true 3 = "On" ∧
    (processNode c2Api c2Node).map (Option.map (fun p =>
        (p.2.online, (alookup p.2.devices "LIV Hub").map DeviceRecord.system_status)))
      = .ok (some (false, some "On")) := by
  exact ⟨rfl, rfl⟩

theorem processNode_error (api : ApiModel) (node : NodeRaw)
    (hc : api.get_node_config = prodGetNodeConfig)
    (ht : pyTruthyStr node.id = true) :
    processNode api node = .error .attributeError := by
  cases hid : node.id with
  | none =>
    rw [hid] at ht
    simp [pyTruthyStr] at ht
  | some nid =>
    have hne : ¬nid = "" := by
      rw [hid] at ht
      simpa [pyTruthyStr] using ht
    simp only [processNode, hid, hc, prodGetNodeConfig, if_neg hne]

theorem updateLoop_error (api : ApiModel)
    (hc : api.get_node_config = prodGetNodeConfig) :
    ∀ (nodes : List NodeRaw) (acc : Store),
      (∃ node ∈ nodes, pyTruthyStr node.id = true) →
      ∃ e, updateLoop api nodes acc = .error e := by
  intro nodes
  induction nodes with
  | nil =>
    rintro acc ⟨node, hmem, _⟩
    cases hmem
  | cons node rest ih =>
    rintro acc ⟨n0, hmem, ht⟩
    by_cases hh : pyTruthyStr node.id = true
    · refine ⟨.attributeError, ?_⟩
      unfold updateLoop
      rw [processNode_error api node hc hh]
    · rcases List.mem_cons.mp hmem with rfl | hmem2
      · exact absurd ht hh
      · unfold updateLoop
        cases hpn : processNode api node with
        | error e => exact ⟨e, rfl⟩
        | ok o =>
          cases o with
          | none => exact ih acc ⟨n0, hmem2, ht⟩
          | some pr =>
            obtain ⟨nid, rec⟩ := pr
            exact ih _ ⟨n0, hmem2, ht⟩

/-- Claim C3: when the api object behaves as the production
ThermacellLivAPI (whose attribute get_node_config does not exist, so
the access raises AttributeError) and get_user_nodes returns at least
one node with a truthy id whose status payload is truthy, the update
cycle raises UpdateFailed and the stored node map is returned
unchanged. -/
theorem missingGetNodeConfigUpdateFailed :
    ∀ (api : ApiModel) (st : Store),
      api.get_node_config = prodGetNodeConfig →
      (∃ node ∈ api.get_user_nodes,
        pyTruthyStr node.id = true ∧ api.get_node_status (node.id.getD "") ≠ none) →
      (∃ m, (runUpdate api st).1 = .error m) ∧ (runUpdate api st).2 = st := by
  intro api st hc hex
  obtain ⟨node, hmem, ht, hst⟩ := hex
  have herr : ∃ e, updateDataBody api = .error e := by
    unfold updateDataBody
    cases hn : api.get_user_nodes with
    | nil =>
      rw [hn] at hmem
      cases hmem
    | cons n0 rest =>
      rw [hn] at hmem
      exact updateLoop_error api hc (n0 :: rest) [] ⟨node, hmem, ht⟩
  obtain ⟨e, he⟩ := herr
  have h2 : asyncUpdateData api = .error ⟨"Error communicating with API: " ++ pyErrMsg e⟩ := by
    unfold asyncUpdateData
    rw [he]
  unfold runUpdate
  rw [h2]
  exact ⟨⟨_, rfl⟩, rfl⟩

def c3Node : NodeRaw := ⟨some "node1", some "Hub", none, none⟩

def c3Api : ApiModel := ⟨[c3Node], fun _ => some ⟨none⟩, prodGetNodeConfig⟩

/-- Witness for C3 on a one-node api with the production (missing)
get_node_config. -/
theorem missingGetNodeConfigUpdateFailed_witness :
    (∃ m, (runUpdate c3Api []).1 = .error m) ∧ (runUpdate c3Api []).2 = [] :=
  missingGetNodeConfigUpdateFailed c3Api [] rfl
    ⟨c3Node, List.mem_singleton.mpr rfl, by decide, by decide⟩

/-- Claim C9: a poll cycle in which the node fetch returns zero nodes
raises the typed UpdateFailed condition (with the message produced by
wrapping the inner No nodes found failure) and leaves the previously
stored node map exactly as it was. -/
theorem pollZeroNodesPreservesStore :
    ∀ (api : ApiModel) (st : Store),
      api.get_user_nodes = [] →
      (runUpdate api st).1 = .error ⟨"Error communicating with API: No nodes found"⟩ ∧
      (runUpdate api st).2 = st := by
  intro api st h
  have hb : updateDataBody api = .error (.updateFailedExc "No nodes found") := by
    unfold updateDataBody
    rw [h]
  have h2 : asyncUpdateData api = .error ⟨"Error communicating with API: No nodes found"⟩ := by
    unfold asyncUpdateData
    rw [hb]
    rfl
  unfold runUpdate
  rw [h2]
  exact ⟨rfl, rfl⟩

def c9Api : ApiModel := ⟨[], fun _ => none, prodGetNodeConfig⟩

def c9Store : Store :=
  [("nodeZ", ⟨"nodeZ", "Hub Z", "LIV Hub", "1.0", "thermacell-hub", none, none, true, []⟩)]

/-- Witness for C9 on an empty node fetch with a non-empty prior store. -/
theorem pollZeroNodesPreservesStore_witness :
    (runUpdate c9Api c9Store).1 = .error ⟨"Error communicating with API: No nodes found"⟩ ∧
    (runUpdate c9Api c9Store).2 = c9Store :=
  pollZeroNodesPreservesStore c9Api c9Store rfl

theorem mrLoop_step_resp {α : Type} (emptyObj : α) (authEvs : List AuthEv)
    (reqEvs : List (ReqEv α)) (fuel attempt authIdx : Nat) (cred : CredState) (nr na : Nat)
    (status : Nat) (isJson : Bool) (body : α)
    (hev : reqEvs.getD attempt (ReqEv.exc : ReqEv α) = ReqEv.resp status isJson body) :
    mrLoop emptyObj authEvs reqEvs (fuel + 1) attempt authIdx cred nr na =
      if status = 401 then
        if (authenticate cred (authEvs.getD authIdx AuthEv.exc)).1 then
          mrLoop emptyObj authEvs reqEvs fuel (attempt + 1) (authIdx + 1)
            (authenticate cred (authEvs.getD authIdx AuthEv.exc)).2 (nr + 1) (na + 1)
        else ⟨.ok none, (authenticate cred (authEvs.getD authIdx AuthEv.exc)).2, nr + 1, na + 1⟩
      else if status = 200 ∨ status = 201 ∨ status = 204 then
        ⟨.ok (some (if isJson then body else emptyObj)), cred, nr + 1, na⟩
      else ⟨.ok none, cred, nr + 1, na⟩ := by
  rw [mrLoop.eq_2, hev]
  rfl

theorem mrLoop_step_timeout {α : Type} (emptyObj : α) (authEvs : List AuthEv)
    (reqEvs : List (ReqEv α)) (fuel attempt authIdx : Nat) (cred : CredState) (nr na : Nat)
    (hev : reqEvs.getD attempt (ReqEv.exc : ReqEv α) = ReqEv.timeout) :
    mrLoop emptyObj authEvs reqEvs (fuel + 1) attempt authIdx cred nr na =
      if attempt = RETRY_ATTEMPTS - 1 then ⟨.ok none, cred, nr + 1, na⟩
      else mrLoop emptyObj authEvs reqEvs fuel (attempt + 1) authIdx cred (nr + 1) na := by
  rw [mrLoop.eq_2, hev]
  rfl

theorem mrLoop_step_exc {α : Type} (emptyObj : α) (authEvs : List AuthEv)
    (reqEvs : List (ReqEv α)) (fuel attempt authIdx : Nat) (cred : CredState) (nr na : Nat)
    (hev : reqEvs.getD attempt (ReqEv.exc : ReqEv α) = ReqEv.exc) :
    mrLoop emptyObj authEvs reqEvs (fuel + 1) attempt authIdx cred nr na =
      ⟨.ok none, cred, nr + 1, na⟩ := by
  rw [mrLoop.eq_2, hev]
  rfl

theorem mrLoop_no_raise {α : Type} (emptyObj : α) (authEvs : List AuthEv)
    (reqEvs : List (ReqEv α)) :
    ∀ (fuel attempt authIdx : Nat) (cred : CredState) (nr na : Nat),
      ∃ v, (mrLoop emptyObj authEvs reqEvs fuel attempt authIdx cred nr na).result = .ok v := by
  intro fuel
  induction fuel with
  | zero => exact fun _ _ _ _ _ => ⟨none, rfl⟩
  | succ f ih =>
    intro attempt authIdx cred nr na
    cases hev : reqEvs.getD attempt (ReqEv.exc : ReqEv α) with
    | resp status isJson body =>
      rw [mrLoop_step_resp emptyObj authEvs reqEvs f attempt authIdx cred nr na status isJson
        body hev]
      by_cases h401 : status = 401
      · rw [if_pos h401]
        by_cases ha : (authenticate cred (authEvs.getD authIdx AuthEv.exc)).1 = true
        · rw [if_pos ha]
          exact ih (attempt + 1) (authIdx + 1) _ (nr + 1) (na + 1)
        · rw [if_neg ha]
          exact ⟨none, rfl⟩
      · rw [if_neg h401]
        by_cases h2 : status = 200 ∨ status = 201 ∨ status = 204
        · rw [if_pos h2]
          exact ⟨some (if isJson then body else emptyObj), rfl⟩
        · rw [if_neg h2]
          exact ⟨none, rfl⟩
    | timeout =>
      rw [mrLoop_step_timeout emptyObj authEvs reqEvs f attempt authIdx cred nr na hev]
      by_cases hl : attempt = RETRY_ATTEMPTS - 1
      · rw [if_pos hl]
        exact ⟨none, rfl⟩
      · rw [if_neg hl]
        exact ih (attempt + 1) authIdx cred (nr + 1) na
    | exc =>
      rw [mrLoop_step_exc emptyObj authEvs reqEvs f attempt authIdx cred nr na hev]
      exact ⟨none, rfl⟩

theorem makeRequest_no_raise {α : Type} (emptyObj : α) (cred : CredState)
    (authEvs : List AuthEv) (reqEvs : List (ReqEv α)) :
    ∃ v, (makeRequest emptyObj cred authEvs reqEvs).result = .ok v := by
  unfold makeRequest
  by_cases h : pyTruthyStr cred.access_token = true
  · rw [if_pos h]
    exact mrLoop_no_raise emptyObj authEvs reqEvs RETRY_ATTEMPTS 0 0 cred 0 0
  · rw [if_neg h]
    by_cases ha : (authenticate cred (authEvs.getD 0 AuthEv.exc)).1 = true
    · rw [if_pos ha]
      exact mrLoop_no_raise emptyObj authEvs reqEvs RETRY_ATTEMPTS 0 1 _ 0 1
    · rw [if_neg ha]
      exact ⟨none, rfl⟩

/-- Claim C6: each of the five coordinator command operations, run end
to end over the embedded transport (any script of network outcomes,
including timeouts and exceptions, and any credential state), produces
an ok result carrying a boolean outcome: no transport or credential
error escapes as an exception. -/
theorem commandsNoRawException :
    ∀ (α : Type) (emptyObj : α) (cred : CredState) (authEvs : List AuthEv)
      (reqEvs : List (ReqEv α)) (st : Store) (n d : String),
      (∀ p, ∃ r, runCommand emptyObj cred authEvs reqEvs st
          (fun success s => async_set_device_power success s n d p) = .ok r) ∧
      (∀ l, ∃ r, runCommand emptyObj cred authEvs reqEvs st
          (fun success s => async_set_device_led_power success s n d l) = .ok r) ∧
      (∀ red green blue, ∃ r, runCommand emptyObj cred authEvs reqEvs st
          (fun success s => async_set_device_led_color success s n d red green blue) = .ok r) ∧
      (∀ br, ∃ r, runCommand emptyObj cred authEvs reqEvs st
          (fun success s => async_set_device_led_brightness success s n d br) = .ok r) ∧
      (∃ r, runCommand emptyObj cred authEvs reqEvs st
          (fun success s => async_reset_refill_life success s n d) = .ok r) := by
  intro α emptyObj cred authEvs reqEvs st n d
  obtain ⟨v, hv⟩ := makeRequest_no_raise emptyObj cred authEvs reqEvs
  have hrun : ∀ f : Bool → Store → Bool × Store,
      ∃ r, runCommand emptyObj cred authEvs reqEvs st f = .ok r := by
    intro f
    unfold runCommand set_node_params
    dsimp only
    rw [hv]
    exact ⟨_, rfl⟩
  exact ⟨fun p => hrun _, fun l => hrun _, fun a b c => hrun _, fun br => hrun _, hrun _⟩

/-- Counterexample to claim C7: with a valid stored token and a script
in which the first two requests both return 401 while every
re-authentication succeeds, a single _make_request call performs two
re-authentication attempts, contradicting exactly one re-auth and one
retry per request. -/
theorem single401Retry_cex :
    (makeRequest (0 : Nat) ⟨some "t", some "u"⟩
      [AuthEv.resp 200 (some "t2") (some (some (some "u2"))),
       AuthEv.resp 200 (some "t3") (some (some (some "u3")))]
      [ReqEv.resp 401 true 0, ReqEv.resp 401 true 0]).nAuths = 2 := rfl

theorem mrLoop_nAuths_le {α : Type} (emptyObj : α) (authEvs : List AuthEv)
    (reqEvs : List (ReqEv α)) :
    ∀ (fuel attempt authIdx : Nat) (cred : CredState) (nr na : Nat),
      (mrLoop emptyObj authEvs reqEvs fuel attempt authIdx cred nr na).nAuths ≤ na + fuel := by
  intro fuel
  induction fuel with
  | zero => exact fun _ _ _ _ na => Nat.le_add_right na 0
  | succ f ih =>
    intro attempt authIdx cred nr na
    cases hev : reqEvs.getD attempt (ReqEv.exc : ReqEv α) with
    | resp status isJson body =>
      rw [mrLoop_step_resp emptyObj authEvs reqEvs f attempt authIdx cred nr na status isJson
        body hev]
      by_cases h401 : status = 401
      · rw [if_pos h401]
        by_cases ha : (authenticate cred (authEvs.getD authIdx AuthEv.exc)).1 = true
        · rw [if_pos ha]
          exact le_trans (ih (attempt + 1) (authIdx + 1) _ (nr + 1) (na + 1)) (by omega)
        · rw [if_neg ha]
          show na + 1 ≤ na + (f + 1)
          omega
      · rw [if_neg h401]
        by_cases h2 : status = 200 ∨ status = 201 ∨ status = 204
        · rw [if_pos h2]
          exact Nat.le_add_right na (f + 1)
        · rw [if_neg h2]
          exact Nat.le_add_right na (f + 1)
    | timeout =>
      rw [mrLoop_step_timeout emptyObj authEvs reqEvs f attempt authIdx cred nr na hev]
      by_cases hl : attempt = RETRY_ATTEMPTS - 1
      · rw [if_pos hl]
        exact Nat.le_add_right na (f + 1)
      · rw [if_neg hl]
        exact le_trans (ih (attempt + 1) authIdx cred (nr + 1) na) (by omega)
    | exc =>
      rw [mrLoop_step_exc emptyObj authEvs reqEvs f attempt authIdx cred nr na hev]
      exact Nat.le_add_right na (f + 1)

theorem makeRequest_nAuths_le {α : Type} (emptyObj : α) (cred : CredState)
    (authEvs : List AuthEv) (reqEvs : List (ReqEv α))
    (h : pyTruthyStr cred.access_token = true) :
    (makeRequest emptyObj cred authEvs reqEvs).nAuths ≤ RETRY_ATTEMPTS := by
  unfold makeRequest
  rw [if_pos h]
  exact mrLoop_nAuths_le emptyObj authEvs reqEvs RETRY_ATTEMPTS 0 0 cred 0 0

/-- Claim C7 amended: on an HTTP 401 the transport triggers one
re-authentication attempt for that response; if it fails, the request
returns None immediately (one request, one re-auth, no retry); if it
succeeds, the request is retried with the new credential, and a 2xx on
the retry returns its body after exactly one re-auth and one retry;
however the 401 handling shares the overall RETRY_ATTEMPTS = 3 attempt
budget, so a single request can perform up to three re-authentications
(never more) rather than exactly one. -/
theorem http401Reauth_amended :
    ∀ (α : Type) (emptyObj : α) (cred : CredState) (a0 : AuthEv) (arest : List AuthEv)
      (j0 : Bool) (b0 : α) (rrest : List (ReqEv α)),
      pyTruthyStr cred.access_token = true →
      ((authenticate cred a0).1 = false →
        makeRequest emptyObj cred (a0 :: arest) (ReqEv.resp 401 j0 b0 :: rrest)
          = ⟨.ok none, (authenticate cred a0).2, 1, 1⟩) ∧
      (∀ body : α, (authenticate cred a0).1 = true →
        makeRequest emptyObj cred (a0 :: arest)
            (ReqEv.resp 401 j0 b0 :: ReqEv.resp 200 true body :: rrest)
          = ⟨.ok (some body), (authenticate cred a0).2, 2, 1⟩) ∧
      (∀ (authEvs : List AuthEv) (reqEvs : List (ReqEv α)),
        (makeRequest emptyObj cred authEvs reqEvs).nAuths ≤ RETRY_ATTEMPTS) := by
  intro α emptyObj cred a0 arest j0 b0 rrest htok
  refine ⟨fun hf => ?_, fun body ht => ?_,
    fun authEvs reqEvs => makeRequest_nAuths_le emptyObj cred authEvs reqEvs htok⟩
  · unfold makeRequest
    rw [if_pos htok]
    show mrLoop emptyObj (a0 :: arest) (ReqEv.resp 401 j0 b0 :: rrest) (2 + 1) 0 0 cred 0 0 = _
    rw [mrLoop_step_resp emptyObj (a0 :: arest) (ReqEv.resp 401 j0 b0 :: rrest) 2 0 0 cred 0 0
      401 j0 b0 rfl]
    simp [hf]
  · unfold makeRequest
    rw [if_pos htok]
    show mrLoop emptyObj (a0 :: arest)
        (ReqEv.resp 401 j0 b0 :: ReqEv.resp 200 true body :: rrest) (2 + 1) 0 0 cred 0 0 = _
    rw [mrLoop_step_resp emptyObj (a0 :: arest)
      (ReqEv.resp 401 j0 b0 :: ReqEv.resp 200 true body :: rrest) 2 0 0 cred 0 0 401 j0 b0 rfl]
    simp only [List.getD_cons_zero, ht, if_true, if_pos rfl, Nat.zero_add]
    show mrLoop emptyObj (a0 :: arest)
        (ReqEv.resp 401 j0 b0 :: ReqEv.resp 200 true body :: rrest) (1 + 1) 1 1
        (authenticate cred a0).2 1 1 = _
    rw [mrLoop_step_resp emptyObj (a0 :: arest)
      (ReqEv.resp 401 j0 b0 :: ReqEv.resp 200 true body :: rrest) 1 1 1
      (authenticate cred a0).2 1 1 200 true body rfl]
    simp

/-- Witness for the amended C7: one 401 followed by a successful
re-authentication and a 200 retry returns the retried body with
exactly one re-auth and two requests. -/
theorem http401Reauth_amended_witness :
    makeRequest (0 : Nat) ⟨some "t", some "u"⟩
        [AuthEv.resp 200 (some "t2") (some (some (some "u2")))]
        [ReqEv.resp 401 true 0, ReqEv.resp 200 true 7]
      = ⟨.ok (some 7),
         (authenticate ⟨some "t", some "u"⟩
           (AuthEv.resp 200 (some "t2") (some (some (some "u2"))))).2, 2, 1⟩ :=
  (http401Reauth_amended Nat 0 ⟨some "t", some "u"⟩
      (AuthEv.resp 200 (some "t2") (some (some (some "u2")))) [] true 0 []
      (by decide)).2.1 7 (by decide)

/-- Counterexample to claim C10: a previously authenticated client that
receives a 200 login response whose body carries no accesstoken and no
idtoken ends with access_token cleared but user_id kept: authenticate
returns false (a failure) yet the stored credential state changed, so
the pair is neither replaced wholesale nor left intact. -/
theorem credentialAtomicity_cex :
    authenticate ⟨some "t1", some "u1"⟩ (AuthEv.resp 200 none none)
      = (false, ⟨none, some "u1"⟩) ∧
    (⟨none, some "u1"⟩ : CredState) ≠ ⟨some "t1", some "u1"⟩ := by
  exact ⟨rfl, by decide⟩

/-- Claim C10 amended: on a network error or a non-200 response the
stored credential pair is unchanged and authenticate returns false; on
a 200 response access_token is always overwritten with the accesstoken
field of the body (even when absent), user_id is overwritten exactly
when a decodable idtoken with truthy payload is present, and the
returned boolean is true iff both stored fields are non-None
afterwards — so a 200 response with required fields absent returns
false while still partially updating the credential state. -/
theorem credentialAtomicity_amended :
    ∀ cred : CredState,
      authenticate cred AuthEv.exc = (false, cred) ∧
      (∀ s tok idt, s ≠ 200 → authenticate cred (AuthEv.resp s tok idt) = (false, cred)) ∧
      (∀ tok idt, (authenticate cred (AuthEv.resp 200 tok idt)).2.access_token = tok) ∧
      (∀ tok, (authenticate cred (AuthEv.resp 200 tok none)).2.user_id = cred.user_id) ∧
      (∀ tok, (authenticate cred (AuthEv.resp 200 tok (some none))).2.user_id = cred.user_id) ∧
      (∀ tok u, (authenticate cred (AuthEv.resp 200 tok (some (some u)))).2.user_id = u) ∧
      (∀ tok idt, (authenticate cred (AuthEv.resp 200 tok idt)).1 =
        ((authenticate cred (AuthEv.resp 200 tok idt)).2.access_token.isSome &&
          (authenticate cred (AuthEv.resp 200 tok idt)).2.user_id.isSome)) := by
  intro cred
  refine ⟨rfl, fun s tok idt hs => ?_, fun tok idt => ?_, fun tok => rfl, fun tok => rfl,
    fun tok u => rfl, fun tok idt => ?_⟩
  · unfold authenticate
    dsimp only
    rw [if_neg hs]
  · cases idt with
    | none => rfl
    | some o =>
      cases o with
      | none => rfl
      | some u => rfl
  · cases idt with
    | none => rfl
    | some o =>
      cases o with
      | none => rfl
      | some u => rfl

/-- Witness for the amended C10: a 500 response leaves an empty
credential state unchanged. -/
theorem credentialAtomicity_amended_witness :
    authenticate ⟨none, none⟩ (AuthEv.resp 500 (some "x") none) = (false, ⟨none, none⟩) :=
  (credentialAtomicity_amended ⟨none, none⟩).2.1 500 (some "x") none (by decide)

end ThermacellLiv
